import Mathlib

/-
Verification of the Nephra GFR scoring core.

The Python source contains two living implementations of the lab-based
estimator, `calculate_egfr` in `src/scripts/nephra_utils.py` (namespace `NU`
below) and in `src/scripts/gfr_calculator.py` (namespace `GC` below).  Both
evaluate the same CKD-EPI 2021 arithmetic (`egfrRaw` below) after their own
input validation.  Python floats are modelled by real numbers; Python
`round(x, 2)` is modelled by `roundTo2` (round half up at the third decimal;
the model and both embedded implementations use the same rounding, and no
claim below depends on behaviour at an exact half-cent tie).

`estimate_gfr_score` and `interpret_gfr` are imported by `src/test_gfr.py`
from `main`, but `src/main.py` does not define them; those parts are
modelled from the spec and are marked as such in their doc comments.
-/

namespace Nephra

/-- Python `str.lower()`: lowercase every character.  The repository's gender
strings are ASCII, where `Char.toLower` agrees with Python. -/
def pyLower (s : String) : String := String.mk (s.data.map Char.toLower)

/-- Python `str.strip()`: drop leading and trailing whitespace. -/
def pyStrip (s : String) : String :=
  String.mk (((s.data.dropWhile Char.isWhitespace).reverse.dropWhile
    Char.isWhitespace).reverse)

/-- The normalization `gender.lower().strip()` used by both implementations. -/
def pyNorm (s : String) : String := pyStrip (pyLower s)

/-- Python `round(x, 2)`: round to two decimal places. -/
noncomputable def roundTo2 (x : ℝ) : ℝ := ((round (100 * x) : ℤ) : ℝ) / 100

/-- Per-sex knot `k` of the CKD-EPI 2021 equation
(`nephra_utils.py` lines 248-255, `gfr_calculator.py` lines 139-146). -/
noncomputable def kCoeff (isFemale : Bool) : ℝ := if isFemale then 0.7 else 0.9

/-- Per-sex low-creatinine exponent `alpha`
(`nephra_utils.py` lines 248-255, `gfr_calculator.py` lines 139-146). -/
noncomputable def alphaCoeff (isFemale : Bool) : ℝ :=
  if isFemale then -0.241 else -0.302

/-- Per-sex multiplier `sex_factor`
(`nephra_utils.py` lines 248-255, `gfr_calculator.py` lines 139-146). -/
noncomputable def sexFactor (isFemale : Bool) : ℝ := if isFemale then 1.012 else 1

/-- The CKD-EPI 2021 arithmetic shared verbatim by `nephra_utils.py`
lines 262-266 and `gfr_calculator.py` lines 150-154:
`142 * min(scr/k, 1) ** alpha * max(scr/k, 1) ** -1.200 * 0.9938 ** age * sex_factor`.
The two power operations on `min`/`max` are real powers (`Real.rpow`); the
age power is an integer power (`gfr_calculator.py` performs no range check on
`age`, so a negative integer age is possible there). -/
noncomputable def egfrRaw (f : Bool) (age : ℤ) (scr : ℝ) : ℝ :=
  142 * (min (scr / kCoeff f) 1) ^ alphaCoeff f
    * (max (scr / kCoeff f) 1) ^ (-1.2 : ℝ)
    * (0.9938 : ℝ) ^ age * sexFactor f

namespace NU

/-- Gender handling of `nephra_utils.calculate_egfr` (lines 239-258):
`None` or the empty string is rejected (`if not gender or not
isinstance(gender, str): return None`); otherwise the input is normalized by
`gender.lower().strip()` and only the exact strings `"female"` and `"male"`
are accepted; anything else is rejected (`return None`).  `some true` means
female, `some false` male, `none` explicit failure. -/
def parseGender (gender : Option String) : Option Bool :=
  match gender with
  | none => none
  | some s =>
    if s = "" then none
    else
      if pyNorm s = "female" then some true
      else if pyNorm s = "male" then some false
      else none

/-- `calculate_egfr` of `src/scripts/nephra_utils.py` (lines 222-270).
Checks, in source order: `age is None or age <= 0 or age > 120` fails;
invalid gender fails (`parseGender`); then the `try` block divides by `k`
and evaluates the formula.  A missing creatinine raises `TypeError` at the
division and a creatinine `<= 0` raises inside the power operations
(`0 ** negative` raises `ZeroDivisionError`; a negative base yields a
complex number which `round` then rejects with `TypeError`); both are caught
by the `except` clause, which returns `None`.  For creatinine `> 0` no
exception occurs and the rounded formula value is returned. -/
noncomputable def calculate_egfr (age : Option ℤ) (gender : Option String)
    (serum_creatinine : Option ℝ) : Option ℝ :=
  match age with
  | none => none
  | some a =>
    if a ≤ 0 ∨ 120 < a then none
    else
      match parseGender gender with
      | none => none
      | some f =>
        match serum_creatinine with
        | none => none
        | some c => if c ≤ 0 then none else some (roundTo2 (egfrRaw f a c))

end NU

namespace GC

/-- Gender handling of `gfr_calculator.calculate_egfr` (lines 117-136):
`is_female` starts `False`; a string whose `lower().strip()` normalization
is in the female list flips it to `True`; a male-list string, any
unrecognized string, and `None` all leave it `False` ("Defaulting to
male"). -/
def isFemale (gender : Option String) : Bool :=
  match gender with
  | none => false
  | some s =>
    ["female", "f", "woman", "girl", "feminine", "mujer"].contains (pyNorm s)

/-- `calculate_egfr` of `src/scripts/gfr_calculator.py` (lines 93-160).
Checks, in source order: `age is None` fails; `serum_creatinine is None or
serum_creatinine <= 0` fails; gender is normalized by `isFemale` (never
failing); the `try` block then evaluates the formula, which raises no
exception for creatinine `> 0`, and returns the rounded value.  No range
check is performed on `age`. -/
noncomputable def calculate_egfr (age : Option ℤ) (gender : Option String)
    (serum_creatinine : Option ℝ) : Option ℝ :=
  match age with
  | none => none
  | some a =>
    match serum_creatinine with
    | none => none
    | some c =>
      if c ≤ 0 then none
      else some (roundTo2 (egfrRaw (isFemale gender) a c))

end GC

/-- The two calculation methods of the estimator (spec section 3, GFRResult). -/
inductive Method where
  | creatinine_based
  | symptom_vital_based
deriving DecidableEq

/-- Modelled from the spec: the branch selection of `estimate_gfr_score`,
whose code is not under `src/` (only its caller `src/test_gfr.py` is).
Spec section 4.1: "Branch selection: if `serum_creatinine` is present and
> 0, use the lab-based branch; otherwise use the profile-based branch." -/
noncomputable def estimateMethod (serum_creatinine : Option ℝ) : Method :=
  match serum_creatinine with
  | none => Method.symptom_vital_based
  | some c =>
    if 0 < c then Method.creatinine_based else Method.symptom_vital_based

/-- A clinical stage with its description (spec section 3, StageResult). -/
structure StageResult where
  stage : String
  description : String
deriving DecidableEq

/-- Modelled from the spec: `interpret_gfr`, whose code is not under `src/`
(only its caller `src/test_gfr.py` is).  Spec section 4.2: "Pure lookup:
gfr>=90 -> G1 'Normal or high kidney function'; >=60 -> G2 'Mildly
decreased'; >=45 -> G3a; >=30 -> G3b; >=15 -> G4 'Severely decreased'; else
G5 'Kidney failure'."  The spec names no description strings for G3a and
G3b; the model uses the standard KDIGO wording there, and no theorem below
relies on those two strings. -/
noncomputable def interpret_gfr (gfr : ℝ) : StageResult :=
  if 90 ≤ gfr then ⟨"G1", "Normal or high kidney function"⟩
  else if 60 ≤ gfr then ⟨"G2", "Mildly decreased"⟩
  else if 45 ≤ gfr then ⟨"G3a", "Mildly to moderately decreased"⟩
  else if 30 ≤ gfr then ⟨"G3b", "Moderately to severely decreased"⟩
  else if 15 ≤ gfr then ⟨"G4", "Severely decreased"⟩
  else ⟨"G5", "Kidney failure"⟩

/-- A historical reading as supplied to the trend analysis: a date string
and a GFR value, either of which may be missing (spec section 3,
HistoricalReading; `src/test_gfr.py` lines 4-10 supply `date` and
`estimatedGFR` keys). -/
structure HistEntry where
  date : Option String
  estimatedGFR : Option ℝ

/-- Modelled from the spec: acceptance of a history entry's date (spec
section 4.3 step 1: "Parse each history entry's date (ISO-8601 with
optional UTC suffix normalization); discard entries with unparsable dates").
A date is parsable when it has the shape `YYYY-MM-DDTHH:MM:SS` with an
optional trailing `Z`, the shape used throughout `src/test_gfr.py`. -/
def parsableISODate (s : String) : Bool :=
  let t := if s.data.getLast? = some 'Z' then s.data.dropLast else s.data
  match t with
  | [y1, y2, y3, y4, '-', m1, m2, '-', d1, d2, 'T',
     h1, h2, ':', n1, n2, ':', s1, s2] =>
    (y1.isDigit && y2.isDigit && y3.isDigit && y4.isDigit &&
     m1.isDigit && m2.isDigit && d1.isDigit && d2.isDigit &&
     h1.isDigit && h2.isDigit && n1.isDigit && n2.isDigit &&
     s1.isDigit && s2.isDigit)
  | _ => false

/-- Modelled from the spec: the filtering step of the trend analysis (spec
section 4.3 step 1: entries with unparsable dates or missing GFR values are
discarded). -/
def validEntries (history : List HistEntry) : List (String × ℝ) :=
  history.filterMap fun e =>
    match e.date, e.estimatedGFR with
    | some d, some g => if parsableISODate d then some (d, g) else none
    | _, _ => none

/-- Insert one entry into a list sorted newest-first by date string
(parsable dates share a fixed format, so string order is chronological). -/
def insertByDateDesc (e : String × ℝ) : List (String × ℝ) → List (String × ℝ)
  | [] => [e]
  | x :: xs => if x.1 ≤ e.1 then e :: x :: xs else x :: insertByDateDesc e xs

/-- Modelled from the spec: sorting the filtered entries newest-first (spec
section 4.3 step 2). -/
def sortByDateDesc : List (String × ℝ) → List (String × ℝ)
  | [] => []
  | x :: xs => insertByDateDesc x (sortByDateDesc xs)

/-- Modelled from the spec: the trend category thresholds on percent change
(spec section 4.3 step 5). -/
noncomputable def trendFromPercent (pc : ℝ) : String :=
  if |pc| < 3 then "stable"
  else if pc < -15 then "severe_decline"
  else if pc < -7 then "moderate_decline"
  else if pc < 0 then "slight_decline"
  else if 15 < pc then "significant_improvement"
  else if 7 < pc then "moderate_improvement"
  else "slight_improvement"

/-- Modelled from the spec: the trend category computed by the trend
analysis of `estimate_gfr_score`, whose code is not under `src/` (only its
caller `src/test_gfr.py` is).  Spec section 4.3: an absent history, an
empty history, and a history with no valid entries after filtering all
yield the explicit category `"insufficient_data"`; otherwise the percent
change against the latest previous reading (0 when that reading is not
positive, spec step 3) is classified by `trendFromPercent`. -/
noncomputable def trendCategory (current : ℝ) (history : Option (List HistEntry)) :
    String :=
  match history with
  | none => "insufficient_data"
  | some h =>
    match sortByDateDesc (validEntries h) with
    | [] => "insufficient_data"
    | latest :: _ =>
      trendFromPercent
        (if latest.2 ≤ 0 then 0 else (current - latest.2) / latest.2 * 100)

/-! Helper lemmas about rounding. -/

lemma round_mono_le {x y : ℝ} (h : x ≤ y) : round x ≤ round y := by
  rw [round_eq, round_eq]
  exact Int.floor_mono (by linarith)

lemma roundTo2_mono {x y : ℝ} (h : x ≤ y) : roundTo2 x ≤ roundTo2 y := by
  unfold roundTo2
  have h1 : round (100 * x) ≤ round (100 * y) := round_mono_le (by linarith)
  have h2 : ((round (100 * x) : ℤ) : ℝ) ≤ ((round (100 * y) : ℤ) : ℝ) := by
    exact_mod_cast h1
  linarith

lemma roundTo2_nonneg {x : ℝ} (h : 0 ≤ x) : 0 ≤ roundTo2 x := by
  unfold roundTo2
  have h1 : round (0 : ℝ) ≤ round (100 * x) := round_mono_le (by linarith)
  rw [round_zero] at h1
  have h2 : (0 : ℝ) ≤ ((round (100 * x) : ℤ) : ℝ) := by exact_mod_cast h1
  linarith

lemma sub_lt_roundTo2 (x : ℝ) : x - 1 / 200 < roundTo2 x := by
  unfold roundTo2
  rw [round_eq]
  have h := Int.sub_one_lt_floor (100 * x + 1 / 2)
  have h2 : 100 * x + 1 / 2 - 1 < ((⌊100 * x + 1 / 2⌋ : ℤ) : ℝ) := h
  linarith

lemma roundTo2_le_add (x : ℝ) : roundTo2 x ≤ x + 1 / 200 := by
  unfold roundTo2
  rw [round_eq]
  have h : ((⌊100 * x + 1 / 2⌋ : ℤ) : ℝ) ≤ 100 * x + 1 / 2 :=
    Int.floor_le (100 * x + 1 / 2)
  linarith

/-! Helper lemmas about the CKD-EPI arithmetic. -/

lemma rpow_anti_base {x y z : ℝ} (hx : 0 < x) (hxy : x ≤ y) (hz : z ≤ 0) :
    y ^ z ≤ x ^ z := by
  have hy : 0 < y := hx.trans_le hxy
  rw [show z = -(-z) from (neg_neg z).symm, Real.rpow_neg hx.le,
    Real.rpow_neg hy.le]
  exact inv_anti₀ (Real.rpow_pos_of_pos hx _)
    (Real.rpow_le_rpow hx.le hxy (neg_nonneg.2 hz))

lemma kCoeff_pos (f : Bool) : 0 < kCoeff f := by
  cases f <;> norm_num [kCoeff]

lemma alphaCoeff_nonpos (f : Bool) : alphaCoeff f ≤ 0 := by
  cases f <;> norm_num [alphaCoeff]

lemma sexFactor_pos (f : Bool) : 0 < sexFactor f := by
  cases f <;> norm_num [sexFactor]

lemma min_ratio_pos (f : Bool) {c : ℝ} (hc : 0 < c) :
    0 < min (c / kCoeff f) 1 :=
  lt_min (div_pos hc (kCoeff_pos f)) one_pos

lemma max_ratio_pos (f : Bool) (c : ℝ) : (0 : ℝ) < max (c / kCoeff f) 1 :=
  lt_of_lt_of_le one_pos (le_max_right _ _)

lemma egfrRaw_pos (f : Bool) (a : ℤ) {c : ℝ} (hc : 0 < c) :
    0 < egfrRaw f a c := by
  unfold egfrRaw
  have h1 := Real.rpow_pos_of_pos (min_ratio_pos f hc) (alphaCoeff f)
  have h2 := Real.rpow_pos_of_pos (max_ratio_pos f c) (-1.2 : ℝ)
  have h3 : (0 : ℝ) < (0.9938 : ℝ) ^ a := zpow_pos (by norm_num) a
  have h4 := sexFactor_pos f
  positivity

/-- The raw CKD-EPI value is antitone in serum creatinine. -/
lemma egfrRaw_anti_scr (f : Bool) (a : ℤ) {c₁ c₂ : ℝ} (h1 : 0 < c₁)
    (h12 : c₁ ≤ c₂) : egfrRaw f a c₂ ≤ egfrRaw f a c₁ := by
  unfold egfrRaw
  have hk := kCoeff_pos f
  have hr : c₁ / kCoeff f ≤ c₂ / kCoeff f := by
    rw [div_eq_mul_inv, div_eq_mul_inv]
    exact mul_le_mul_of_nonneg_right h12 (inv_nonneg.2 hk.le)
  have hminpos : 0 < min (c₁ / kCoeff f) 1 := min_ratio_pos f h1
  have hmin : min (c₁ / kCoeff f) 1 ≤ min (c₂ / kCoeff f) 1 :=
    min_le_min hr le_rfl
  have hmaxpos : (0 : ℝ) < max (c₁ / kCoeff f) 1 := max_ratio_pos f c₁
  have hmax : max (c₁ / kCoeff f) 1 ≤ max (c₂ / kCoeff f) 1 :=
    max_le_max hr le_rfl
  have hA : (min (c₂ / kCoeff f) 1) ^ alphaCoeff f ≤
      (min (c₁ / kCoeff f) 1) ^ alphaCoeff f :=
    rpow_anti_base hminpos hmin (alphaCoeff_nonpos f)
  have hB : (max (c₂ / kCoeff f) 1) ^ (-1.2 : ℝ) ≤
      (max (c₁ / kCoeff f) 1) ^ (-1.2 : ℝ) :=
    rpow_anti_base hmaxpos hmax (by norm_num)
  have hA2 : (0 : ℝ) ≤ (min (c₂ / kCoeff f) 1) ^ alphaCoeff f :=
    (Real.rpow_pos_of_pos (min_ratio_pos f (h1.trans_le h12)) _).le
  have hB2 : (0 : ℝ) ≤ (max (c₂ / kCoeff f) 1) ^ (-1.2 : ℝ) :=
    (Real.rpow_pos_of_pos (max_ratio_pos f c₂) _).le
  have hA1 : (0 : ℝ) ≤ (min (c₁ / kCoeff f) 1) ^ alphaCoeff f :=
    (Real.rpow_pos_of_pos hminpos _).le
  have hP : (0 : ℝ) ≤ (0.9938 : ℝ) ^ a := (zpow_pos (by norm_num) a).le
  have hS : (0 : ℝ) ≤ sexFactor f := (sexFactor_pos f).le
  have hcore : 142 * (min (c₂ / kCoeff f) 1) ^ alphaCoeff f *
      (max (c₂ / kCoeff f) 1) ^ (-1.2 : ℝ) ≤
      142 * (min (c₁ / kCoeff f) 1) ^ alphaCoeff f *
      (max (c₁ / kCoeff f) 1) ^ (-1.2 : ℝ) := by
    apply mul_le_mul _ hB hB2 (mul_nonneg (by norm_num) hA1)
    exact mul_le_mul_of_nonneg_left hA (by norm_num)
  exact mul_le_mul_of_nonneg_right (mul_le_mul_of_nonneg_right hcore hP) hS

/-- The raw CKD-EPI value is antitone in age. -/
lemma egfrRaw_anti_age (f : Bool) {a₁ a₂ : ℤ} (h : a₁ ≤ a₂) {c : ℝ}
    (hc : 0 < c) : egfrRaw f a₂ c ≤ egfrRaw f a₁ c := by
  unfold egfrRaw
  have hP : (0.9938 : ℝ) ^ a₂ ≤ (0.9938 : ℝ) ^ a₁ :=
    zpow_le_zpow_right_of_le_one₀ (by norm_num) (by norm_num) h
  have hAB : (0 : ℝ) ≤ 142 * (min (c / kCoeff f) 1) ^ alphaCoeff f *
      (max (c / kCoeff f) 1) ^ (-1.2 : ℝ) :=
    mul_nonneg
      (mul_nonneg (by norm_num)
        (Real.rpow_pos_of_pos (min_ratio_pos f hc) _).le)
      (Real.rpow_pos_of_pos (max_ratio_pos f c) _).le
  exact mul_le_mul_of_nonneg_right (mul_le_mul_of_nonneg_left hP hAB)
    (sexFactor_pos f).le

/-! Evaluation lemmas connecting validation to the arithmetic. -/

lemma parseGender_eval_female {s : String} (h : pyNorm s = "female") :
    NU.parseGender (some s) = some true := by
  have hne : s ≠ "" := by
    intro he
    rw [he] at h
    exact absurd h (by decide)
  simp [NU.parseGender, hne, h]

lemma parseGender_eval_male {s : String} (h : pyNorm s = "male") :
    NU.parseGender (some s) = some false := by
  have hne : s ≠ "" := by
    intro he
    rw [he] at h
    exact absurd h (by decide)
  simp [NU.parseGender, hne, h]

lemma NU_eval {a : ℤ} {g : Option String} {f : Bool} {c : ℝ} (h1 : 0 < a)
    (h2 : a ≤ 120) (hg : NU.parseGender g = some f) (hc : 0 < c) :
    NU.calculate_egfr (some a) g (some c) = some (roundTo2 (egfrRaw f a c)) := by
  unfold NU.calculate_egfr
  rw [hg]
  have hna : ¬(a ≤ 0 ∨ 120 < a) := by omega
  simp [hna, hc.not_le]

lemma GC_eval {a : ℤ} {g : Option String} {c : ℝ} (hc : 0 < c) :
    GC.calculate_egfr (some a) g (some c) =
      some (roundTo2 (egfrRaw (GC.isFemale g) a c)) := by
  unfold GC.calculate_egfr
  simp [hc.not_le]

lemma isFemale_eval_female {s : String} (h : pyNorm s = "female") :
    GC.isFemale (some s) = true := by
  simp [GC.isFemale, h]

lemma isFemale_eval_male {s : String} (h : pyNorm s = "male") :
    GC.isFemale (some s) = false := by
  simp [GC.isFemale, h]

/-- Value of the formula when creatinine equals the knot `k`: both `min` and
`max` ratios are `1` and the power factors vanish. -/
lemma egfrRaw_at_k (f : Bool) (a : ℤ) :
    egfrRaw f a (kCoeff f) = 142 * (0.9938 : ℝ) ^ a * sexFactor f := by
  unfold egfrRaw
  rw [div_self (kCoeff_pos f).ne', min_self, max_self, Real.one_rpow,
    Real.one_rpow]
  ring

/-! Lemmas characterizing the failure (`none`) paths. -/

lemma NU_none_of_bad_gender {g : Option String}
    (hg : NU.parseGender g = none) (a : Option ℤ) (c : Option ℝ) :
    NU.calculate_egfr a g c = none := by
  cases a with
  | none => rfl
  | some x => simp [NU.calculate_egfr, hg]

lemma NU_none_of_bad_age {x : ℤ} (hx : x ≤ 0 ∨ 120 < x) (g : Option String)
    (c : Option ℝ) : NU.calculate_egfr (some x) g c = none := by
  simp [NU.calculate_egfr, hx]

lemma NU_none_of_nonpos_scr {c : ℝ} (hc : c ≤ 0) (a : Option ℤ)
    (g : Option String) : NU.calculate_egfr a g (some c) = none := by
  cases a with
  | none => rfl
  | some x =>
    rcases hpg : NU.parseGender g with _ | f <;>
      simp [NU.calculate_egfr, hpg, hc]

lemma NU_none_scr_none (a : Option ℤ) (g : Option String) :
    NU.calculate_egfr a g none = none := by
  cases a with
  | none => rfl
  | some x =>
    rcases hpg : NU.parseGender g with _ | f <;>
      simp [NU.calculate_egfr, hpg]

lemma GC_none_of_nonpos_scr {c : ℝ} (hc : c ≤ 0) (a : Option ℤ)
    (g : Option String) : GC.calculate_egfr a g (some c) = none := by
  cases a with
  | none => rfl
  | some x =>
    unfold GC.calculate_egfr
    simp [hc]

/-! The claims. -/

/-- C1 (as stated, refuted): the claim that every valid input yields an
estimate in `[15, 120]`, with the lab result clamped to at most `120`, is
false on the code: `calculate_egfr` applies no clamp.  At the valid input
age 20, sex `"male"`, creatinine `0.9` the returned estimate exceeds `120`,
and at age 20, `"male"`, creatinine `90` it falls below `15`. -/
theorem C1_counterexample :
    120 < (NU.calculate_egfr (some 20) (some "male") (some 0.9)).getD 0 ∧
    (NU.calculate_egfr (some 20) (some "male") (some 90)).getD 99 < 15 := by
  have hpm : NU.parseGender (some "male") = some false :=
    parseGender_eval_male (by decide)
  have e1 : NU.calculate_egfr (some 20) (some "male") (some 0.9) =
      some (roundTo2 (egfrRaw false 20 0.9)) :=
    NU_eval (by norm_num) (by norm_num) hpm (by norm_num)
  have e2 : NU.calculate_egfr (some 20) (some "male") (some 90) =
      some (roundTo2 (egfrRaw false 20 90)) :=
    NU_eval (by norm_num) (by norm_num) hpm (by norm_num)
  constructor
  · rw [e1, Option.getD_some]
    have hv : egfrRaw false 20 0.9 = 142 * (0.9938 : ℝ) ^ (20 : ℤ) := by
      have hk : (0.9 : ℝ) = kCoeff false := by norm_num [kCoeff]
      rw [hk, egfrRaw_at_k]
      norm_num [sexFactor]
    have hb : (120 + 1 / 200 : ℝ) ≤ 142 * (0.9938 : ℝ) ^ (20 : ℤ) := by
      rw [zpow_ofNat]
      norm_num
    have := sub_lt_roundTo2 (egfrRaw false 20 0.9)
    rw [hv] at this ⊢
    linarith
  · rw [e2, Option.getD_some]
    have hv : egfrRaw false 20 90 =
        142 * (100 : ℝ) ^ (-1.2 : ℝ) * (0.9938 : ℝ) ^ (20 : ℤ) := by
      unfold egfrRaw
      have hk : kCoeff false = 0.9 := by norm_num [kCoeff]
      rw [hk, show (90 : ℝ) / 0.9 = 100 by norm_num,
        min_eq_right (by norm_num : (1 : ℝ) ≤ 100),
        max_eq_left (by norm_num : (1 : ℝ) ≤ 100), Real.one_rpow,
        show sexFactor false = 1 by norm_num [sexFactor]]
      ring
    have ht : (100 : ℝ) ^ (-1.2 : ℝ) ≤ 1 / 100 := by
      have h1 : (100 : ℝ) ^ (-1.2 : ℝ) ≤ (100 : ℝ) ^ (-1 : ℝ) :=
        Real.rpow_le_rpow_of_exponent_le (by norm_num) (by norm_num)
      rw [Real.rpow_neg_one] at h1
      have h2 : ((100 : ℝ))⁻¹ = 1 / 100 := by norm_num
      linarith
    have htn : (0 : ℝ) ≤ (100 : ℝ) ^ (-1.2 : ℝ) :=
      (Real.rpow_pos_of_pos (by norm_num) _).le
    have hp : (0.9938 : ℝ) ^ (20 : ℤ) ≤ 1 :=
      zpow_le_one₀ (by norm_num) (by norm_num) (by norm_num)
    have hpn : (0 : ℝ) ≤ (0.9938 : ℝ) ^ (20 : ℤ) := (zpow_pos (by norm_num) _).le
    have hx : egfrRaw false 20 90 ≤ 1.42 := by
      rw [hv]
      calc 142 * (100 : ℝ) ^ (-1.2 : ℝ) * (0.9938 : ℝ) ^ (20 : ℤ) ≤
          142 * (1 / 100) * 1 := by
            apply mul_le_mul _ hp hpn (by norm_num)
            exact mul_le_mul_of_nonneg_left ht (by norm_num)
        _ = 1.42 := by norm_num
    have := roundTo2_le_add (egfrRaw false 20 90)
    linarith

/-- C1 (amended): for every valid input — positive age at most 120, sex
normalizing to `"female"` or `"male"`, creatinine > 0 — `calculate_egfr`
returns an estimate and that estimate is nonnegative; no clamp to
`[15, 120]` is applied (the counterexample shows both bounds can be
violated). -/
theorem C1_estimate_nonneg_unclamped (a : ℤ) (g : String) (c : ℝ)
    (h1 : 0 < a) (h2 : a ≤ 120)
    (hg : pyNorm g = "female" ∨ pyNorm g = "male") (hc : 0 < c) :
    ∃ r, NU.calculate_egfr (some a) (some g) (some c) = some r ∧ 0 ≤ r := by
  rcases hg with h | h
  · exact ⟨_, NU_eval h1 h2 (parseGender_eval_female h) hc,
      roundTo2_nonneg (egfrRaw_pos true a hc).le⟩
  · exact ⟨_, NU_eval h1 h2 (parseGender_eval_male h) hc,
      roundTo2_nonneg (egfrRaw_pos false a hc).le⟩

/-- Witness for C1 (amended) at age 50, `"female"`, creatinine 1.0. -/
theorem C1_witness :
    ∃ r, NU.calculate_egfr (some 50) (some "female") (some 1.0) = some r ∧
      0 ≤ r :=
  C1_estimate_nonneg_unclamped 50 "female" 1.0 (by norm_num) (by norm_num)
    (Or.inl (by decide)) (by norm_num)

/-- C2 (code bug): `gfr_calculator.calculate_egfr` does not fail on an
unrecognized sex string; it silently defaults to the male coefficients.  At
age 45, creatinine 1.0 the gender `"unknown"` produces exactly the male
result, and not the failure value `None`.  (`nephra_utils.calculate_egfr`
does fail explicitly on the same input, as the claim requires.) -/
theorem C2_silent_default_to_male :
    GC.calculate_egfr (some 45) (some "unknown") (some 1.0) =
      GC.calculate_egfr (some 45) (some "male") (some 1.0) ∧
    GC.calculate_egfr (some 45) (some "unknown") (some 1.0) ≠ none ∧
    NU.calculate_egfr (some 45) (some "unknown") (some 1.0) = none := by
  have e1 : GC.calculate_egfr (some 45) (some "unknown") (some 1.0) =
      some (roundTo2 (egfrRaw (GC.isFemale (some "unknown")) 45 1.0)) :=
    GC_eval (by norm_num)
  have e2 : GC.calculate_egfr (some 45) (some "male") (some 1.0) =
      some (roundTo2 (egfrRaw (GC.isFemale (some "male")) 45 1.0)) :=
    GC_eval (by norm_num)
  have hu : GC.isFemale (some "unknown") = false := by decide
  have hm : GC.isFemale (some "male") = false := by decide
  refine ⟨?_, ?_, ?_⟩
  · rw [e1, e2, hu, hm]
  · rw [e1]
    exact Option.some_ne_none _
  · exact NU_none_of_bad_gender (by decide) _ _

/-- C3: for every valid input the lab-based estimate is exactly the rounded
CKD-EPI 2021 value
`142 * min(c/k, 1)^alpha * max(c/k, 1)^(-1.200) * 0.9938^age * sex_factor`
with `k = 0.7`, `alpha = -0.241`, `sex_factor = 1.012` for female and
`k = 0.9`, `alpha = -0.302`, `sex_factor = 1.0` for male, in both
implementations. -/
theorem C3_ckdepi_formula (a : ℤ) (g : String) (c : ℝ) (h1 : 0 < a)
    (h2 : a ≤ 120) (hc : 0 < c) :
    (pyNorm g = "female" →
      NU.calculate_egfr (some a) (some g) (some c) =
        some (roundTo2 (142 * (min (c / 0.7) 1) ^ (-0.241 : ℝ) *
          (max (c / 0.7) 1) ^ (-1.2 : ℝ) * (0.9938 : ℝ) ^ a * 1.012)) ∧
      GC.calculate_egfr (some a) (some g) (some c) =
        some (roundTo2 (142 * (min (c / 0.7) 1) ^ (-0.241 : ℝ) *
          (max (c / 0.7) 1) ^ (-1.2 : ℝ) * (0.9938 : ℝ) ^ a * 1.012))) ∧
    (pyNorm g = "male" →
      NU.calculate_egfr (some a) (some g) (some c) =
        some (roundTo2 (142 * (min (c / 0.9) 1) ^ (-0.302 : ℝ) *
          (max (c / 0.9) 1) ^ (-1.2 : ℝ) * (0.9938 : ℝ) ^ a * 1)) ∧
      GC.calculate_egfr (some a) (some g) (some c) =
        some (roundTo2 (142 * (min (c / 0.9) 1) ^ (-0.302 : ℝ) *
          (max (c / 0.9) 1) ^ (-1.2 : ℝ) * (0.9938 : ℝ) ^ a * 1))) := by
  constructor
  · intro h
    have hf : egfrRaw true a c = 142 * (min (c / 0.7) 1) ^ (-0.241 : ℝ) *
        (max (c / 0.7) 1) ^ (-1.2 : ℝ) * (0.9938 : ℝ) ^ a * 1.012 := by
      norm_num [egfrRaw, kCoeff, alphaCoeff, sexFactor]
    refine ⟨?_, ?_⟩
    · rw [NU_eval h1 h2 (parseGender_eval_female h) hc, hf]
    · rw [GC_eval hc, isFemale_eval_female h, hf]
  · intro h
    have hf : egfrRaw false a c = 142 * (min (c / 0.9) 1) ^ (-0.302 : ℝ) *
        (max (c / 0.9) 1) ^ (-1.2 : ℝ) * (0.9938 : ℝ) ^ a * 1 := by
      norm_num [egfrRaw, kCoeff, alphaCoeff, sexFactor]
    refine ⟨?_, ?_⟩
    · rw [NU_eval h1 h2 (parseGender_eval_male h) hc, hf]
    · rw [GC_eval hc, isFemale_eval_male h, hf]

/-- Witness for C3 at age 50, `"female"`, creatinine 0.7. -/
theorem C3_witness :
    NU.calculate_egfr (some 50) (some "female") (some 0.7) =
      some (roundTo2 (142 * (min ((0.7 : ℝ) / 0.7) 1) ^ (-0.241 : ℝ) *
        (max ((0.7 : ℝ) / 0.7) 1) ^ (-1.2 : ℝ) *
        (0.9938 : ℝ) ^ (50 : ℤ) * 1.012)) :=
  ((C3_ckdepi_formula 50 "female" 0.7 (by norm_num) (by norm_num)
    (by norm_num)).1 (by decide)).1

/-- C4: in the lab-based branch, for fixed age and sex, the estimate is
monotone non-increasing in serum creatinine; and at a common input
(age 50, creatinine 0.9) the female and male results differ, because the
two coefficient sets differ. -/
theorem C4_monotone_scr_and_sexes_differ :
    (∀ (a : ℤ) (g : String) (c₁ c₂ : ℝ), 0 < a → a ≤ 120 →
      (pyNorm g = "female" ∨ pyNorm g = "male") → 0 < c₁ → c₁ ≤ c₂ →
      ∀ r₁ r₂, NU.calculate_egfr (some a) (some g) (some c₁) = some r₁ →
        NU.calculate_egfr (some a) (some g) (some c₂) = some r₂ →
        r₂ ≤ r₁) ∧
    NU.calculate_egfr (some 50) (some "female") (some 0.9) ≠
      NU.calculate_egfr (some 50) (some "male") (some 0.9) := by
  constructor
  · intro a g c₁ c₂ h1 h2 hg hc1 hc12 r₁ r₂ e₁ e₂
    have hc2 : 0 < c₂ := lt_of_lt_of_le hc1 hc12
    rcases hg with h | h
    · rw [NU_eval h1 h2 (parseGender_eval_female h) hc1] at e₁
      rw [NU_eval h1 h2 (parseGender_eval_female h) hc2] at e₂
      rw [← Option.some.inj e₁, ← Option.some.inj e₂]
      exact roundTo2_mono (egfrRaw_anti_scr true a hc1 hc12)
    · rw [NU_eval h1 h2 (parseGender_eval_male h) hc1] at e₁
      rw [NU_eval h1 h2 (parseGender_eval_male h) hc2] at e₂
      rw [← Option.some.inj e₁, ← Option.some.inj e₂]
      exact roundTo2_mono (egfrRaw_anti_scr false a hc1 hc12)
  · have ef : NU.calculate_egfr (some 50) (some "female") (some 0.9) =
        some (roundTo2 (egfrRaw true 50 0.9)) :=
      NU_eval (by norm_num) (by norm_num) (parseGender_eval_female (by decide))
        (by norm_num)
    have em : NU.calculate_egfr (some 50) (some "male") (some 0.9) =
        some (roundTo2 (egfrRaw false 50 0.9)) :=
      NU_eval (by norm_num) (by norm_num) (parseGender_eval_male (by decide))
        (by norm_num)
    have hXm : egfrRaw false 50 0.9 = 142 * (0.9938 : ℝ) ^ (50 : ℤ) := by
      have hk : (0.9 : ℝ) = kCoeff false := by norm_num [kCoeff]
      rw [hk, egfrRaw_at_k]
      norm_num [sexFactor]
    have hXf : egfrRaw true 50 0.9 ≤
        142 * (7 / 9) * (0.9938 : ℝ) ^ (50 : ℤ) * 1.012 := by
      unfold egfrRaw
      rw [show kCoeff true = 0.7 by norm_num [kCoeff],
        show (0.9 : ℝ) / 0.7 = 9 / 7 by norm_num,
        min_eq_right (by norm_num : (1 : ℝ) ≤ 9 / 7),
        max_eq_left (by norm_num : (1 : ℝ) ≤ 9 / 7), Real.one_rpow,
        show sexFactor true = 1.012 by norm_num [sexFactor]]
      have ht : (9 / 7 : ℝ) ^ (-1.2 : ℝ) ≤ 7 / 9 := by
        have h1 : (9 / 7 : ℝ) ^ (-1.2 : ℝ) ≤ (9 / 7 : ℝ) ^ (-1 : ℝ) :=
          Real.rpow_le_rpow_of_exponent_le (by norm_num) (by norm_num)
        rw [Real.rpow_neg_one] at h1
        have h2 : ((9 : ℝ) / 7)⁻¹ = 7 / 9 := by norm_num
        linarith
      have hp : (0 : ℝ) ≤ (0.9938 : ℝ) ^ (50 : ℤ) :=
        (zpow_pos (by norm_num) _).le
      have := mul_le_mul_of_nonneg_right ht hp
      nlinarith [this]
    have hp7 : (0.7 : ℝ) ≤ (0.9938 : ℝ) ^ (50 : ℤ) := by
      rw [zpow_ofNat]
      norm_num
    have hgap : egfrRaw true 50 0.9 + 1 / 100 ≤ egfrRaw false 50 0.9 := by
      rw [hXm]
      nlinarith [hXf, hp7]
    have hlt : roundTo2 (egfrRaw true 50 0.9) <
        roundTo2 (egfrRaw false 50 0.9) := by
      have l1 := roundTo2_le_add (egfrRaw true 50 0.9)
      have l2 := sub_lt_roundTo2 (egfrRaw false 50 0.9)
      linarith
    rw [ef, em]
    intro h
    exact absurd (Option.some.inj h) hlt.ne

/-- Witness for C4 at age 40, `"male"`, creatinine 1.0 versus 1.5. -/
theorem C4_witness :
    roundTo2 (egfrRaw false 40 1.5) ≤ roundTo2 (egfrRaw false 40 1.0) ∧
    NU.calculate_egfr (some 50) (some "female") (some 0.9) ≠
      NU.calculate_egfr (some 50) (some "male") (some 0.9) :=
  ⟨C4_monotone_scr_and_sexes_differ.1 40 "male" 1.0 1.5 (by norm_num)
    (by norm_num) (Or.inr (by decide)) (by norm_num) (by norm_num) _ _
    (NU_eval (by norm_num) (by norm_num) (parseGender_eval_male (by decide))
      (by norm_num))
    (NU_eval (by norm_num) (by norm_num) (parseGender_eval_male (by decide))
      (by norm_num)),
   C4_monotone_scr_and_sexes_differ.2⟩

/-- C5: a creatinine value that is present but not positive is treated as
absent, not as an error: the estimator's branch selection sends it to the
profile-based branch exactly as it sends an absent creatinine, and neither
`calculate_egfr` implementation produces a lab-based estimate for it (both
return the failure value, raising nothing). -/
theorem C5_nonpos_creatinine_treated_absent (c : ℝ) (hc : c ≤ 0)
    (a : Option ℤ) (g : Option String) :
    estimateMethod (some c) = Method.symptom_vital_based ∧
    estimateMethod (some c) = estimateMethod none ∧
    NU.calculate_egfr a g (some c) = none ∧
    GC.calculate_egfr a g (some c) = none := by
  refine ⟨?_, ?_, NU_none_of_nonpos_scr hc a g, GC_none_of_nonpos_scr hc a g⟩
  · simp [estimateMethod, not_lt.2 hc]
  · simp [estimateMethod, not_lt.2 hc]

/-- Witness for C5 at creatinine 0, age 45, `"female"`. -/
theorem C5_witness :
    estimateMethod (some (0 : ℝ)) = Method.symptom_vital_based ∧
    NU.calculate_egfr (some 45) (some "female") (some (0 : ℝ)) = none := by
  have h := C5_nonpos_creatinine_treated_absent 0 le_rfl (some 45)
    (some "female")
  exact ⟨h.1, h.2.2.1⟩

/-- C6: both estimators are total functions of their well-typed inputs and
return `some` estimate exactly on the inputs passing their validation
(every invalid input yields the typed failure value `none`, which is
distinct from every `some` result; every exception path of the source is a
`none` path of the model). -/
theorem C6_total_typed_failure (a : Option ℤ) (g : Option String)
    (c : Option ℝ) :
    ((NU.calculate_egfr a g c).isSome = true ↔
      (∃ x, a = some x ∧ 0 < x ∧ x ≤ 120) ∧
        (NU.parseGender g).isSome = true ∧ ∃ v, c = some v ∧ 0 < v) ∧
    ((GC.calculate_egfr a g c).isSome = true ↔
      a.isSome = true ∧ ∃ v, c = some v ∧ 0 < v) := by
  constructor
  · cases a with
    | none => simp [NU.calculate_egfr]
    | some x =>
      cases c with
      | none => simp [NU_none_scr_none]
      | some v =>
        by_cases hv : v ≤ 0
        · apply iff_of_false
          · simp [NU_none_of_nonpos_scr hv]
          · rintro ⟨-, -, v', hv', hpos⟩
            obtain rfl : v = v' := Option.some.inj hv'
            linarith
        · by_cases hx : x ≤ 0 ∨ 120 < x
          · apply iff_of_false
            · simp [NU_none_of_bad_age hx]
            · rintro ⟨⟨x', hx', h1, h2⟩, -, -⟩
              obtain rfl : x = x' := Option.some.inj hx'
              omega
          · rcases hpg : NU.parseGender g with _ | f
            · apply iff_of_false
              · simp [NU_none_of_bad_gender hpg]
              · rintro ⟨-, hsome, -⟩
                simp at hsome
            · rw [NU_eval (by omega) (by omega) hpg (not_le.1 hv)]
              apply iff_of_true
              · rfl
              · exact ⟨⟨x, rfl, by omega, by omega⟩, by simp [hpg],
                  v, rfl, not_le.1 hv⟩
  · cases a with
    | none => simp [GC.calculate_egfr]
    | some x =>
      cases c with
      | none => simp [GC.calculate_egfr]
      | some v =>
        by_cases hv : v ≤ 0
        · apply iff_of_false
          · simp [GC_none_of_nonpos_scr hv]
          · rintro ⟨-, v', hv', hpos⟩
            obtain rfl : v = v' := Option.some.inj hv'
            linarith
        · rw [GC_eval (not_le.1 hv)]
          apply iff_of_true
          · rfl
          · exact ⟨rfl, v, rfl, not_le.1 hv⟩

/-- C7: the stage classifier is a pure lookup over the fixed thresholds
90, 60, 45, 30, 15, with the documented stage codes and descriptions, and
all eight boundary values land as listed (90 is G1, 89.9 is G2, 60 is G2,
59.9 is G3a, 45 is G3a, 30 is G3b, 15 is G4, 14.9 is G5). -/
theorem C7_stage_lookup :
    (∀ g : ℝ, 90 ≤ g →
      interpret_gfr g = ⟨"G1", "Normal or high kidney function"⟩) ∧
    (∀ g : ℝ, 60 ≤ g → g < 90 →
      interpret_gfr g = ⟨"G2", "Mildly decreased"⟩) ∧
    (∀ g : ℝ, 45 ≤ g → g < 60 → (interpret_gfr g).stage = "G3a") ∧
    (∀ g : ℝ, 30 ≤ g → g < 45 → (interpret_gfr g).stage = "G3b") ∧
    (∀ g : ℝ, 15 ≤ g → g < 30 →
      interpret_gfr g = ⟨"G4", "Severely decreased"⟩) ∧
    (∀ g : ℝ, g < 15 → interpret_gfr g = ⟨"G5", "Kidney failure"⟩) ∧
    (interpret_gfr 90).stage = "G1" ∧ (interpret_gfr 89.9).stage = "G2" ∧
    (interpret_gfr 60).stage = "G2" ∧ (interpret_gfr 59.9).stage = "G3a" ∧
    (interpret_gfr 45).stage = "G3a" ∧ (interpret_gfr 30).stage = "G3b" ∧
    (interpret_gfr 15).stage = "G4" ∧ (interpret_gfr 14.9).stage = "G5" := by
  refine ⟨?_, ?_, ?_, ?_, ?_, ?_, ?_, ?_, ?_, ?_, ?_, ?_, ?_, ?_⟩
  · intro g h
    rw [interpret_gfr, if_pos h]
  · intro g h1 h2
    rw [interpret_gfr, if_neg (by linarith), if_pos h1]
  · intro g h1 h2
    rw [interpret_gfr, if_neg (by linarith), if_neg (by linarith), if_pos h1]
  · intro g h1 h2
    rw [interpret_gfr, if_neg (by linarith), if_neg (by linarith),
      if_neg (by linarith), if_pos h1]
  · intro g h1 h2
    rw [interpret_gfr, if_neg (by linarith), if_neg (by linarith),
      if_neg (by linarith), if_neg (by linarith), if_pos h1]
  · intro g h
    rw [interpret_gfr, if_neg (by linarith), if_neg (by linarith),
      if_neg (by linarith), if_neg (by linarith), if_neg (by linarith)]
  · norm_num [interpret_gfr]
  · norm_num [interpret_gfr]
  · norm_num [interpret_gfr]
  · norm_num [interpret_gfr]
  · norm_num [interpret_gfr]
  · norm_num [interpret_gfr]
  · norm_num [interpret_gfr]
  · norm_num [interpret_gfr]

/-- Witness for C7 at GFR 95. -/
theorem C7_witness :
    interpret_gfr 95 = ⟨"G1", "Normal or high kidney function"⟩ :=
  C7_stage_lookup.1 95 (by norm_num)

/-- C8: the trend analysis yields the explicit category
`"insufficient_data"` — not a raised exception, the model being a total
function — whenever the history is absent, empty, or left without valid
entries after discarding entries with unparsable dates or missing GFR
values. -/
theorem C8_insufficient_data (current : ℝ) :
    trendCategory current none = "insufficient_data" ∧
    trendCategory current (some []) = "insufficient_data" ∧
    ∀ h : List HistEntry, validEntries h = [] →
      trendCategory current (some h) = "insufficient_data" := by
  refine ⟨rfl, rfl, ?_⟩
  intro h hv
  simp [trendCategory, hv, sortByDateDesc]

/-- Witness for C8: a history whose entries all have an unparsable date or
a missing GFR value. -/
theorem C8_witness :
    trendCategory 50 (some [⟨some "bad-date", some 60⟩, ⟨none, some 61⟩,
      ⟨some "2025-04-01T10:00:00Z", none⟩]) = "insufficient_data" :=
  (C8_insufficient_data 50).2.2 _ rfl

/-- C9: on the common domain — age an integer with 0 < age ≤ 120, a sex
string whose lowercased stripped form is exactly `"female"` or `"male"`,
and serum creatinine > 0 — the two `calculate_egfr` implementations return
equal results. -/
theorem C9_implementations_agree (a : ℤ) (g : String) (c : ℝ) (h1 : 0 < a)
    (h2 : a ≤ 120) (hg : pyNorm g = "female" ∨ pyNorm g = "male")
    (hc : 0 < c) :
    GC.calculate_egfr (some a) (some g) (some c) =
      NU.calculate_egfr (some a) (some g) (some c) := by
  rcases hg with h | h
  · rw [GC_eval hc, NU_eval h1 h2 (parseGender_eval_female h) hc,
      isFemale_eval_female h]
  · rw [GC_eval hc, NU_eval h1 h2 (parseGender_eval_male h) hc,
      isFemale_eval_male h]

/-- Witness for C9 at age 50, `"male"`, creatinine 1.1. -/
theorem C9_witness :
    GC.calculate_egfr (some 50) (some "male") (some 1.1) =
      NU.calculate_egfr (some 50) (some "male") (some 1.1) :=
  C9_implementations_agree 50 "male" 1.1 (by norm_num) (by norm_num)
    (Or.inr (by decide)) (by norm_num)

/-- C10: in the lab-based branch, for fixed recognized sex and fixed
creatinine > 0, the estimate is monotone non-increasing in age over the
accepted range. -/
theorem C10_monotone_age (a₁ a₂ : ℤ) (g : String) (c : ℝ) (h1 : 0 < a₁)
    (h12 : a₁ ≤ a₂) (h2 : a₂ ≤ 120)
    (hg : pyNorm g = "female" ∨ pyNorm g = "male") (hc : 0 < c) :
    ∀ r₁ r₂, NU.calculate_egfr (some a₁) (some g) (some c) = some r₁ →
      NU.calculate_egfr (some a₂) (some g) (some c) = some r₂ →
      r₂ ≤ r₁ := by
  intro r₁ r₂ e₁ e₂
  have h1' : 0 < a₂ := lt_of_lt_of_le h1 h12
  have h2' : a₁ ≤ 120 := le_trans h12 h2
  rcases hg with h | h
  · rw [NU_eval h1 h2' (parseGender_eval_female h) hc] at e₁
    rw [NU_eval h1' h2 (parseGender_eval_female h) hc] at e₂
    rw [← Option.some.inj e₁, ← Option.some.inj e₂]
    exact roundTo2_mono (egfrRaw_anti_age true h12 hc)
  · rw [NU_eval h1 h2' (parseGender_eval_male h) hc] at e₁
    rw [NU_eval h1' h2 (parseGender_eval_male h) hc] at e₂
    rw [← Option.some.inj e₁, ← Option.some.inj e₂]
    exact roundTo2_mono (egfrRaw_anti_age false h12 hc)

/-- Witness for C10 at ages 30 and 60, `"female"`, creatinine 1.0. -/
theorem C10_witness :
    roundTo2 (egfrRaw true 60 1.0) ≤ roundTo2 (egfrRaw true 30 1.0) :=
  C10_monotone_age 30 60 "female" 1.0 (by norm_num) (by norm_num)
    (by norm_num) (Or.inl (by decide)) (by norm_num) _ _
    (NU_eval (by norm_num) (by norm_num) (parseGender_eval_female (by decide))
      (by norm_num))
    (NU_eval (by norm_num) (by norm_num) (parseGender_eval_female (by decide))
      (by norm_num))

end Nephra
